import Mathlib

/-!
Shallow embedding of `server.js` (webverse-backend).

The source file contains two variants of the same Express/Mongoose server,
separated by a document separator:

* Variant 1 (lines 1-161): POST `/api/players` computes
  `score = Math.max(0, Math.floor((600 - timeTaken) * 1.5))` in the handler
  (line 94); the Mongoose schema (lines 55-62) only marks `name`,
  `department`, `timeTaken`, `score` as required, with no trim, no
  maxlength and no min/max on `timeTaken`.  GET `/api/leaderboard` sorts by
  `score` descending then `timeTaken` ascending, limits to 50, and maps
  `rank = index + 1`.  GET `/health` always answers HTTP 200 with
  `database: readyState === 1 ? "Connected" : "Disconnected"`.

* Variant 2 (lines 162-314): the schema (lines 204-229) trims `name` and
  `department`, bounds them to 50 characters, and constrains `timeTaken`
  to `[0, 600]`; a `pre('save')` hook (lines 232-235) computes
  `score = Math.floor((600 - timeTaken) * 1.5)` with no clamp.  Mongoose
  runs schema validation before user `pre('save')` hooks, so an
  out-of-range `timeTaken` is rejected before any score is computed, and
  the handler's `catch` turns that into an HTTP 500 response.

JavaScript numbers are modelled as `ℚ` (every value exercised by these
claims is exact in binary floating point), `Math.floor` as `Int.floor`,
and the request body as a record of optional fields.  `!name` on a
string-typed field is falsy exactly when the field is absent or the empty
string, and `timeTaken === undefined` checks only presence; the `match`
and the emptiness test below reproduce that.  JavaScript
`String.prototype.trim` is modelled as `strTrim`, dropping leading and
trailing whitespace characters.
-/

/-- Request body of POST `/api/players`.  Every field may be absent.  The
`score` field models a client-supplied score: both handlers destructure
only `name`, `department`, (`email`,) `timeTaken` from `req.body`, so a
client `score` is ignored. -/
structure ReqBody where
  name : Option String
  department : Option String
  email : Option String
  timeTaken : Option ℚ
  score : Option ℚ
deriving Repr, DecidableEq

/-- Persisted player document of variant 1 (schema lines 55-62: `name`,
`department`, optional `email`, `timeTaken`, `score`; no trim, no
maxlength, no min/max). -/
structure Player1 where
  name : String
  department : String
  email : Option String
  timeTaken : ℚ
  score : ℤ
deriving Repr, DecidableEq

/-- Persisted player document of variant 2 (schema lines 204-229: trimmed
`name`/`department` of at most 50 characters, `timeTaken` in `[0, 600]`,
derived `score`; no `email` field). -/
structure Player2 where
  name : String
  department : String
  timeTaken : ℚ
  score : ℤ
deriving Repr, DecidableEq

/-- Variant 1 score expression, server.js line 94:
`Math.max(0, Math.floor((600 - timeTaken) * 1.5))`. -/
def computeScore1 (t : ℚ) : ℤ :=
  max 0 ⌊(600 - t) * (3 / 2 : ℚ)⌋

/-- Variant 2 score expression, server.js lines 232-235 (the `pre('save')`
hook): `Math.floor((600 - this.timeTaken) * 1.5)`, no clamp. -/
def computeScore2 (t : ℚ) : ℤ :=
  ⌊(600 - t) * (3 / 2 : ℚ)⌋

/-- JavaScript `String.prototype.trim`: drop leading and trailing
whitespace (Mongoose `trim: true` applies it when the field is set). -/
def strTrim (s : String) : String :=
  String.mk (((s.data.dropWhile Char.isWhitespace).reverse.dropWhile Char.isWhitespace).reverse)

/-- Outcome of one POST `/api/players` request: HTTP 400 with an error
string, HTTP 201 with the stored document, or HTTP 500 with an error
string. -/
inductive SubmitOutcome (ρ : Type) where
  | badRequest (error : String)
  | created (p : ρ)
  | serverError (error : String)
deriving Repr, DecidableEq

/-- Variant 1 POST `/api/players` handler (lines 83-109) acting on the
stored collection `db`.  The guard models
`if (!name || !department || timeTaken === undefined)`: absent or empty
`name`/`department` and absent `timeTaken` yield HTTP 400.  Otherwise the
handler computes the score (line 94), builds the document and saves it;
the variant 1 schema imposes no further constraint on values of these
types, so the save succeeds and appends exactly one document. -/
def submit1 (db : List Player1) (b : ReqBody) : SubmitOutcome Player1 × List Player1 :=
  match b.name, b.department, b.timeTaken with
  | some n, some d, some t =>
    if n = "" ∨ d = "" then
      (.badRequest "Missing required fields: name, department or timeTaken", db)
    else
      let p : Player1 := { name := n, department := d, email := b.email,
                           timeTaken := t, score := computeScore1 t }
      (.created p, db ++ [p])
  | _, _, _ =>
      (.badRequest "Missing required fields: name, department or timeTaken", db)

/-- Mongoose validation of variant 2 on `name`/`department`: the setter
trims the string, `required` rejects the empty string, `maxlength: 50`
bounds its length. -/
def validStr2 (s : String) : Bool :=
  !((strTrim s) = "") && (strTrim s).length ≤ 50

/-- Mongoose validation of variant 2 on `timeTaken`: `min: 0, max: 600`
(schema lines 217-222). -/
def validTime2 (t : ℚ) : Bool :=
  0 ≤ t && t ≤ 600

/-- Variant 2 POST `/api/players` handler (lines 240-273).  Same presence
guard as variant 1 (HTTP 400).  `player.save()` first runs schema
validation (trim, non-empty, maxlength 50, `timeTaken` in `[0, 600]`);
only then does the `pre('save')` hook compute the score and the document
get stored.  A validation failure is caught and answered as HTTP 500
`Failed to save player data` with nothing persisted. -/
def submit2 (db : List Player2) (b : ReqBody) : SubmitOutcome Player2 × List Player2 :=
  match b.name, b.department, b.timeTaken with
  | some n, some d, some t =>
    if n = "" ∨ d = "" then
      (.badRequest "Missing required fields", db)
    else if validStr2 n && validStr2 d && validTime2 t then
      let p : Player2 := { name := strTrim n, department := strTrim d,
                           timeTaken := t, score := computeScore2 t }
      (.created p, db ++ [p])
    else
      (.serverError "Failed to save player data", db)
  | _, _, _ =>
      (.badRequest "Missing required fields", db)

/-- Sort key of GET `/api/leaderboard` (both variants):
`.sort({ score: -1, timeTaken: 1 })` — `score` descending, `timeTaken`
ascending as tie-break. -/
def lbRel (p q : Player1) : Prop :=
  q.score < p.score ∨ (p.score = q.score ∧ p.timeTaken ≤ q.timeTaken)

instance : DecidableRel lbRel := fun p q =>
  inferInstanceAs (Decidable (q.score < p.score ∨ (p.score = q.score ∧ p.timeTaken ≤ q.timeTaken)))

instance : IsTotal Player1 lbRel where
  total p q := by
    unfold lbRel
    rcases lt_trichotomy p.score q.score with h | h | h
    · exact Or.inr (Or.inl h)
    · rcases le_total p.timeTaken q.timeTaken with h' | h'
      · exact Or.inl (Or.inr ⟨h, h'⟩)
      · exact Or.inr (Or.inr ⟨h.symm, h'⟩)
    · exact Or.inl (Or.inl h)

instance : IsTrans Player1 lbRel where
  trans p q u hpq hqu := by
    unfold lbRel at *
    rcases hpq with h | ⟨he, ht⟩ <;> rcases hqu with h' | ⟨he', ht'⟩
    · exact Or.inl (h'.trans h)
    · exact Or.inl (he' ▸ h)
    · exact Or.inl (he ▸ h')
    · exact Or.inr ⟨he.trans he', ht.trans ht'⟩

/-- Leaderboard entry: a stored document plus its 1-based `rank`
(`players.map((player, index) => ({ ...player, rank: index + 1 }))`). -/
structure RankedEntry where
  player : Player1
  rank : Nat
deriving Repr, DecidableEq

/-- Rank annotation: `rankify i [p, q, ...] = [{p, i}, {q, i+1}, ...]`,
used with `i = 1` to model `rank: index + 1`. -/
def rankify (i : Nat) : List Player1 → List RankedEntry
  | [] => []
  | p :: ps => ⟨p, i⟩ :: rankify (i + 1) ps

/-- GET `/api/leaderboard` handler (variant 1 lines 112-135, variant 2
lines 275-299 — identical query, limit and ranking):
`Player.find().sort({score: -1, timeTaken: 1}).limit(50)` then
`rank = index + 1`. -/
def getLeaderboard (db : List Player1) : List RankedEntry :=
  rankify 1 ((List.insertionSort lbRel db).take 50)

/-- Health-check response of GET `/health` (variant 1 lines 138-143):
HTTP status, body `status` field, body `database` field. -/
structure HealthResponse where
  httpStatus : Nat
  status : String
  database : String
deriving Repr, DecidableEq

/-- GET `/health` handler: always `res.status(200)`, with
`database: mongoose.connection.readyState === 1 ? 'Connected' :
'Disconnected'`.  The Mongoose `readyState` is modelled as a natural
number (1 = connected). -/
def healthCheck (readyState : Nat) : HealthResponse :=
  { httpStatus := 200
    status := "OK"
    database := if readyState = 1 then "Connected" else "Disconnected" }

example : computeScore1 100 = 750 := by norm_num [computeScore1]
example : computeScore2 0 = 900 := by norm_num [computeScore2]
example : computeScore1 601 = 0 := by norm_num [computeScore1]
example : computeScore2 700 = -150 := by norm_num [computeScore2]
example : strTrim "  Bob  " = "Bob" := by decide
example : validStr2 " Alice " = true := by decide
example : validTime2 100 = true := by decide
example : validTime2 (-5) = false := by decide
example :
    List.insertionSort lbRel
      [⟨"A", "D1", none, 100, 750⟩, ⟨"B", "D2", none, 0, 900⟩, ⟨"C", "D3", none, 50, 750⟩] =
      [⟨"B", "D2", none, 0, 900⟩, ⟨"C", "D3", none, 50, 750⟩, ⟨"A", "D1", none, 100, 750⟩] := by
  decide

/-! ### Helper lemmas about the score expressions -/

lemma floor_score_nonneg (t : ℚ) (h1 : t ≤ 600) : (0 : ℤ) ≤ ⌊(600 - t) * (3 / 2 : ℚ)⌋ :=
  Int.floor_nonneg.mpr (mul_nonneg (by linarith) (by norm_num))

lemma computeScore1_eq_floor (t : ℚ) (h1 : t ≤ 600) :
    computeScore1 t = ⌊(600 - t) * (3 / 2 : ℚ)⌋ :=
  max_eq_right (floor_score_nonneg t h1)

lemma computeScore1_eq_zero (t : ℚ) (h : 600 < t) : computeScore1 t = 0 := by
  have hneg : ((600 - t) * (3 / 2 : ℚ)) < 0 :=
    mul_neg_of_neg_of_pos (by linarith) (by norm_num)
  have hfl : ⌊(600 - t) * (3 / 2 : ℚ)⌋ < 0 := by
    by_contra hc
    push_neg at hc
    exact absurd (Int.floor_nonneg.mp hc) (not_le.mpr hneg)
  exact max_eq_left hfl.le

lemma validTime2_false_of_gt (t : ℚ) (h : 600 < t) : validTime2 t = false := by
  simp [validTime2]
  intro
  linarith

lemma validTime2_false_of_neg (t : ℚ) (h : t < 0) : validTime2 t = false := by
  simp [validTime2]
  intro h0
  linarith

lemma submit2_invalidTime (db : List Player2) (b : ReqBody) (t : ℚ)
    (hbt : b.timeTaken = some t) (hv : validTime2 t = false) :
    (submit2 db b).2 = db ∧ ∀ p, (submit2 db b).1 ≠ SubmitOutcome.created p := by
  rcases b with ⟨bn, bd, be, btt, bs⟩
  obtain rfl : btt = some t := hbt
  cases bn with
  | none => simp [submit2]
  | some n =>
    cases bd with
    | none => simp [submit2]
    | some d =>
      by_cases hnd : n = "" ∨ d = ""
      · simp [submit2, hnd]
      · simp [submit2, hnd, hv]

/-- C1: for every `timeTaken` in `[0, 600]`, the score computed at
submission (in both variants) equals `⌊(600 - timeTaken) * 1.5⌋` and is
nonnegative. -/
theorem claim_C1_score_formula (t : ℚ) (h0 : 0 ≤ t) (h1 : t ≤ 600) :
    computeScore1 t = ⌊(600 - t) * (3 / 2 : ℚ)⌋ ∧
    computeScore2 t = ⌊(600 - t) * (3 / 2 : ℚ)⌋ ∧
    0 ≤ computeScore1 t ∧ 0 ≤ computeScore2 t :=
  ⟨computeScore1_eq_floor t h1, rfl, le_max_left 0 _, floor_score_nonneg t h1⟩

theorem claim_C1_score_formula_witness :
    (0 : ℚ) ≤ 100 ∧ (100 : ℚ) ≤ 600 ∧
      (computeScore1 100 = ⌊((600 : ℚ) - 100) * (3 / 2 : ℚ)⌋ ∧
       computeScore2 100 = ⌊((600 : ℚ) - 100) * (3 / 2 : ℚ)⌋ ∧
       0 ≤ computeScore1 100 ∧ 0 ≤ computeScore2 100) :=
  ⟨by norm_num, by norm_num, claim_C1_score_formula 100 (by norm_num) (by norm_num)⟩

/-- C2: for every `timeTaken > 600` the variant 1 score is clamped to
exactly `0` (never negative), and variant 2 rejects the submission at
schema validation (`max: 600`) before its unclamped hook ever computes a
score: nothing is persisted and no `201` response is produced. -/
theorem claim_C2_clamp (t : ℚ) (h : 600 < t) :
    computeScore1 t = 0 ∧
    ∀ (db : List Player2) (b : ReqBody), b.timeTaken = some t →
      (submit2 db b).2 = db ∧ ∀ p, (submit2 db b).1 ≠ SubmitOutcome.created p := by
  refine ⟨computeScore1_eq_zero t h, fun db b hbt => ?_⟩
  exact submit2_invalidTime db b t hbt (validTime2_false_of_gt t h)

theorem claim_C2_clamp_witness :
    (600 : ℚ) < 601 ∧ computeScore1 601 = 0 ∧
      (submit2 [] ⟨some "Alice", some "Eng", none, some 601, none⟩).2 = [] ∧
      (submit2 [] ⟨some "Alice", some "Eng", none, some 601, none⟩).1 ≠
        SubmitOutcome.created ⟨"Alice", "Eng", 601, 0⟩ := by
  have h := claim_C2_clamp 601 (by norm_num)
  have h2 := h.2 [] ⟨some "Alice", some "Eng", none, some 601, none⟩ rfl
  exact ⟨by norm_num, h.1, h2.1, h2.2 _⟩

/-- C10: on the schema-enforced input domain `[0, 600]`, variant 1's
clamped score expression and variant 2's unclamped pre-save hook
expression compute the same value. -/
theorem claim_C10_variants_agree (t : ℚ) (h0 : 0 ≤ t) (h1 : t ≤ 600) :
    computeScore1 t = computeScore2 t :=
  computeScore1_eq_floor t h1

theorem claim_C10_variants_agree_witness :
    (0 : ℚ) ≤ 100 ∧ (100 : ℚ) ≤ 600 ∧ computeScore1 100 = computeScore2 100 :=
  ⟨by norm_num, by norm_num, claim_C10_variants_agree 100 (by norm_num) (by norm_num)⟩

/-! ### Inversion lemmas for the submission handlers -/

lemma submit1_created_inv (db : List Player1) (b : ReqBody) (p : Player1)
    (hc : (submit1 db b).1 = SubmitOutcome.created p) :
    ∃ n d t, b.name = some n ∧ b.department = some d ∧ b.timeTaken = some t ∧
      ¬(n = "" ∨ d = "") ∧
      p = ⟨n, d, b.email, t, computeScore1 t⟩ ∧
      (submit1 db b).2 = db ++ [p] := by
  rcases b with ⟨bn, bd, be, btt, bs⟩
  cases bn with
  | none => simp [submit1] at hc
  | some n =>
    cases bd with
    | none => simp [submit1] at hc
    | some d =>
      cases btt with
      | none => simp [submit1] at hc
      | some t =>
        by_cases hnd : n = "" ∨ d = ""
        · simp [submit1, hnd] at hc
        · simp only [submit1, hnd, if_false] at hc ⊢
          refine ⟨n, d, t, rfl, rfl, rfl, hnd, (SubmitOutcome.created.inj hc).symm, ?_⟩
          rw [SubmitOutcome.created.inj hc]

lemma submit2_created_inv (db : List Player2) (b : ReqBody) (p : Player2)
    (hc : (submit2 db b).1 = SubmitOutcome.created p) :
    ∃ n d t, b.name = some n ∧ b.department = some d ∧ b.timeTaken = some t ∧
      validStr2 n = true ∧ validStr2 d = true ∧ validTime2 t = true ∧
      p = ⟨strTrim n, strTrim d, t, computeScore2 t⟩ ∧
      (submit2 db b).2 = db ++ [p] := by
  rcases b with ⟨bn, bd, be, btt, bs⟩
  cases bn with
  | none => simp [submit2] at hc
  | some n =>
    cases bd with
    | none => simp [submit2] at hc
    | some d =>
      cases btt with
      | none => simp [submit2] at hc
      | some t =>
        by_cases hnd : n = "" ∨ d = ""
        · simp [submit2, hnd] at hc
        · by_cases hv : (validStr2 n && validStr2 d && validTime2 t) = true
          · simp only [submit2, hnd, if_false, hv, if_true] at hc ⊢
            have hv' := hv
            simp only [Bool.and_eq_true] at hv'
            refine ⟨n, d, t, rfl, rfl, rfl, hv'.1.1, hv'.1.2, hv'.2,
              (SubmitOutcome.created.inj hc).symm, ?_⟩
            rw [SubmitOutcome.created.inj hc]
          · simp [submit2, hnd, hv] at hc

lemma submit1_missing (db : List Player1) (b : ReqBody)
    (h : b.name = none ∨ b.department = none ∨ b.timeTaken = none) :
    submit1 db b =
      (SubmitOutcome.badRequest "Missing required fields: name, department or timeTaken", db) := by
  rcases b with ⟨bn, bd, be, btt, bs⟩
  cases bn <;> cases bd <;> cases btt <;> simp_all [submit1]

lemma submit2_missing (db : List Player2) (b : ReqBody)
    (h : b.name = none ∨ b.department = none ∨ b.timeTaken = none) :
    submit2 db b = (SubmitOutcome.badRequest "Missing required fields", db) := by
  rcases b with ⟨bn, bd, be, btt, bs⟩
  cases bn <;> cases bd <;> cases btt <;> simp_all [submit2]

lemma validStr2_spec (s : String) (h : validStr2 s = true) :
    strTrim s ≠ "" ∧ (strTrim s).length ≤ 50 := by
  simpa [validStr2] using h

/-- C3: the persisted and returned score is a pure deterministic function
of `timeTaken` alone — a client-provided `score` field in the request
body never changes the outcome, and every created document of either
variant carries exactly the score its variant's expression assigns to the
request's `timeTaken`. -/
theorem claim_C3_score_pure :
    (∀ (db : List Player1) (b : ReqBody) (s : Option ℚ),
        submit1 db { b with score := s } = submit1 db b) ∧
    (∀ (db : List Player2) (b : ReqBody) (s : Option ℚ),
        submit2 db { b with score := s } = submit2 db b) ∧
    (∀ (db : List Player1) (b : ReqBody) (t : ℚ) (p : Player1),
        b.timeTaken = some t → (submit1 db b).1 = SubmitOutcome.created p →
          p.score = computeScore1 t) ∧
    (∀ (db : List Player2) (b : ReqBody) (t : ℚ) (p : Player2),
        b.timeTaken = some t → (submit2 db b).1 = SubmitOutcome.created p →
          p.score = computeScore2 t) := by
  refine ⟨fun db b s => rfl, fun db b s => rfl, ?_, ?_⟩
  · intro db b t p hbt hc
    obtain ⟨n, d, t', _, _, hbt', _, hp, _⟩ := submit1_created_inv db b p hc
    have ht : t' = t := by rw [hbt] at hbt'; exact (Option.some.inj hbt').symm
    rw [hp, ht]
  · intro db b t p hbt hc
    obtain ⟨n, d, t', _, _, hbt', _, _, _, hp, _⟩ := submit2_created_inv db b p hc
    have ht : t' = t := by rw [hbt] at hbt'; exact (Option.some.inj hbt').symm
    rw [hp, ht]

theorem claim_C3_score_pure_witness :
    submit1 [] ⟨some "Alice", some "Eng", none, some 100, some 999⟩ =
      submit1 [] ⟨some "Alice", some "Eng", none, some 100, none⟩ ∧
    (submit1 [] ⟨some "Alice", some "Eng", none, some 100, none⟩).1 =
      SubmitOutcome.created ⟨"Alice", "Eng", none, 100, 750⟩ ∧
    (750 : ℤ) = computeScore1 100 := by
  have hs : computeScore1 100 = 750 := by norm_num [computeScore1]
  have hc : (submit1 [] ⟨some "Alice", some "Eng", none, some 100, none⟩).1 =
      SubmitOutcome.created ⟨"Alice", "Eng", none, 100, 750⟩ := by
    rw [show (750 : ℤ) = computeScore1 100 from hs.symm]
    rfl
  exact ⟨claim_C3_score_pure.1 [] ⟨some "Alice", some "Eng", none, some 100, none⟩ (some 999),
    hc, claim_C3_score_pure.2.2.1 [] ⟨some "Alice", some "Eng", none, some 100, none⟩ 100 _ rfl hc⟩

/-- C4: a submission missing `name`, `department` or `timeTaken` is
answered HTTP 400 (`success: false`) by both variants with nothing
persisted, and a successful (201) call of either variant appends exactly
one new document to storage. -/
theorem claim_C4_presence_validation :
    (∀ (db1 : List Player1) (db2 : List Player2) (b : ReqBody),
        (b.name = none ∨ b.department = none ∨ b.timeTaken = none) →
        submit1 db1 b =
            (SubmitOutcome.badRequest "Missing required fields: name, department or timeTaken",
              db1) ∧
        submit2 db2 b = (SubmitOutcome.badRequest "Missing required fields", db2)) ∧
    (∀ (db : List Player1) (b : ReqBody) (p : Player1),
        (submit1 db b).1 = SubmitOutcome.created p → (submit1 db b).2 = db ++ [p]) ∧
    (∀ (db : List Player2) (b : ReqBody) (p : Player2),
        (submit2 db b).1 = SubmitOutcome.created p → (submit2 db b).2 = db ++ [p]) := by
  refine ⟨fun db1 db2 b h => ⟨submit1_missing db1 b h, submit2_missing db2 b h⟩, ?_, ?_⟩
  · intro db b p hc
    obtain ⟨_, _, _, _, _, _, _, _, hdb⟩ := submit1_created_inv db b p hc
    exact hdb
  · intro db b p hc
    obtain ⟨_, _, _, _, _, _, _, _, _, _, hdb⟩ := submit2_created_inv db b p hc
    exact hdb

theorem claim_C4_presence_validation_witness :
    ((⟨none, some "Eng", none, some 100, none⟩ : ReqBody).name = none ∨
      (⟨none, some "Eng", none, some 100, none⟩ : ReqBody).department = none ∨
      (⟨none, some "Eng", none, some 100, none⟩ : ReqBody).timeTaken = none) ∧
    submit1 [] ⟨none, some "Eng", none, some 100, none⟩ =
      (SubmitOutcome.badRequest "Missing required fields: name, department or timeTaken", []) ∧
    submit2 [] ⟨none, some "Eng", none, some 100, none⟩ =
      (SubmitOutcome.badRequest "Missing required fields", []) ∧
    (submit1 [] ⟨some "Alice", some "Eng", none, some 100, none⟩).1 =
      SubmitOutcome.created ⟨"Alice", "Eng", none, 100, 750⟩ ∧
    (submit1 [] ⟨some "Alice", some "Eng", none, some 100, none⟩).2 =
      [] ++ [⟨"Alice", "Eng", none, 100, 750⟩] := by
  have hs : computeScore1 100 = 750 := by norm_num [computeScore1]
  have hc : (submit1 [] ⟨some "Alice", some "Eng", none, some 100, none⟩).1 =
      SubmitOutcome.created ⟨"Alice", "Eng", none, 100, 750⟩ := by
    rw [show (750 : ℤ) = computeScore1 100 from hs.symm]
    rfl
  have hmiss := claim_C4_presence_validation.1 [] []
    ⟨none, some "Eng", none, some 100, none⟩ (Or.inl rfl)
  exact ⟨Or.inl rfl, hmiss.1, hmiss.2, hc,
    claim_C4_presence_validation.2.1 [] ⟨some "Alice", some "Eng", none, some 100, none⟩ _ hc⟩

/-- C5 counterexample: variant 1 accepts a submission with the negative
`timeTaken = -5` — the handler only checks presence, the variant 1 schema
has no `min`, so the request is answered 201 and the document is
persisted (with score `⌊605 * 1.5⌋ = 907`), contradicting the claim that
every negative `timeTaken` fails validation with nothing persisted. -/
theorem claim_C5_cex :
    (submit1 [] ⟨some "Alice", some "Eng", none, some (-5), none⟩).1 =
      SubmitOutcome.created ⟨"Alice", "Eng", none, -5, 907⟩ ∧
    (submit1 [] ⟨some "Alice", some "Eng", none, some (-5), none⟩).2 =
      [⟨"Alice", "Eng", none, -5, 907⟩] := by
  have hs : computeScore1 (-5) = 907 := by norm_num [computeScore1]
  constructor <;> (rw [show (907 : ℤ) = computeScore1 (-5) from hs.symm]; rfl)

/-- C5 amended: only variant 2 rejects a negative `timeTaken` — its
schema `min: 0` makes `save()` fail, so nothing is persisted and no 201
response is produced (the failure surfaces as HTTP 500, not 400); variant
1 validates only presence and persists negative `timeTaken` as-is. -/
theorem claim_C5_amended (db : List Player2) (b : ReqBody) (t : ℚ)
    (hbt : b.timeTaken = some t) (hneg : t < 0) :
    (submit2 db b).2 = db ∧ ∀ p, (submit2 db b).1 ≠ SubmitOutcome.created p :=
  submit2_invalidTime db b t hbt (validTime2_false_of_neg t hneg)

theorem claim_C5_amended_witness :
    (⟨some "A", some "B", none, some (-5 : ℚ), none⟩ : ReqBody).timeTaken = some (-5 : ℚ) ∧
    ((-5 : ℚ) < 0) ∧
    (submit2 [] ⟨some "A", some "B", none, some (-5), none⟩).2 = [] ∧
    (submit2 [] ⟨some "A", some "B", none, some (-5), none⟩).1 ≠
      SubmitOutcome.created ⟨"A", "B", -5, 907⟩ := by
  have h := claim_C5_amended [] ⟨some "A", some "B", none, some (-5), none⟩ (-5) rfl (by norm_num)
  exact ⟨rfl, by norm_num, h.1, h.2 _⟩

/-- C6 counterexample: variant 1 persists `name = " Bob "` exactly as
sent — its schema has no `trim` (and no `maxlength`) — so a persisted
document whose stored name differs from its trimmed form exists,
contradicting the claim that every persisted record stores a trimmed
name. -/
theorem claim_C6_cex :
    (submit1 [] ⟨some " Bob ", some "Eng", none, some 100, none⟩).2 =
      [⟨" Bob ", "Eng", none, 100, 750⟩] ∧
    strTrim " Bob " ≠ " Bob " := by
  have hs : computeScore1 100 = 750 := by norm_num [computeScore1]
  refine ⟨?_, by decide⟩
  rw [show (750 : ℤ) = computeScore1 100 from hs.symm]
  rfl

/-- C6 amended: the trimmed/non-empty/at-most-50-characters bounds on
`name` and `department` hold for every document persisted by variant 2
(whose schema declares `trim: true, maxlength: 50`); variant 1 enforces
only truthiness of the raw strings and stores them untrimmed and
unbounded. -/
theorem claim_C6_amended (db : List Player2) (b : ReqBody) (p : Player2)
    (hc : (submit2 db b).1 = SubmitOutcome.created p) :
    ∃ n d, b.name = some n ∧ b.department = some d ∧
      p.name = strTrim n ∧ p.department = strTrim d ∧
      p.name ≠ "" ∧ p.name.length ≤ 50 ∧
      p.department ≠ "" ∧ p.department.length ≤ 50 := by
  obtain ⟨n, d, t, h1, h2, _, hvn, hvd, _, hp, _⟩ := submit2_created_inv db b p hc
  obtain ⟨hn1, hn2⟩ := validStr2_spec n hvn
  obtain ⟨hd1, hd2⟩ := validStr2_spec d hvd
  subst hp
  exact ⟨n, d, h1, h2, rfl, rfl, hn1, hn2, hd1, hd2⟩

theorem claim_C6_amended_witness :
    (submit2 [] ⟨some " Alice ", some "Eng", none, some 100, none⟩).1 =
      SubmitOutcome.created ⟨"Alice", "Eng", 100, 750⟩ ∧
    (∃ n d, (⟨some " Alice ", some "Eng", none, some 100, none⟩ : ReqBody).name = some n ∧
      (⟨some " Alice ", some "Eng", none, some 100, none⟩ : ReqBody).department = some d ∧
      ("Alice" : String) = strTrim n ∧ ("Eng" : String) = strTrim d ∧
      ("Alice" : String) ≠ "" ∧ ("Alice" : String).length ≤ 50 ∧
      ("Eng" : String) ≠ "" ∧ ("Eng" : String).length ≤ 50) := by
  have hs : computeScore2 100 = 750 := by norm_num [computeScore2]
  have hc : (submit2 [] ⟨some " Alice ", some "Eng", none, some 100, none⟩).1 =
      SubmitOutcome.created ⟨"Alice", "Eng", 100, 750⟩ := by
    rw [show (750 : ℤ) = computeScore2 100 from hs.symm]
    rfl
  exact ⟨hc, claim_C6_amended [] ⟨some " Alice ", some "Eng", none, some 100, none⟩
    ⟨"Alice", "Eng", 100, 750⟩ hc⟩

/-! ### Helper lemmas about ranking -/

lemma rankify_length : ∀ (l : List Player1) (i : Nat), (rankify i l).length = l.length
  | [], _ => rfl
  | _ :: ps, i => by simp [rankify, rankify_length ps (i + 1)]

lemma mem_rankify_player :
    ∀ (l : List Player1) (i : Nat) (e : RankedEntry), e ∈ rankify i l → e.player ∈ l
  | [], _, _, he => by simp [rankify] at he
  | p :: ps, i, e, he => by
    rcases (by simpa [rankify] using he : e = ⟨p, i⟩ ∨ e ∈ rankify (i + 1) ps) with h | h
    · simp [h]
    · exact List.mem_cons_of_mem p (mem_rankify_player ps (i + 1) e h)

lemma rankify_pairwise :
    ∀ (l : List Player1) (i : Nat), l.Pairwise lbRel →
      (rankify i l).Pairwise fun a b => lbRel a.player b.player
  | [], _, _ => by simp [rankify]
  | p :: ps, i, h => by
    rw [List.pairwise_cons] at h
    refine List.Pairwise.cons ?_ (rankify_pairwise ps (i + 1) h.2)
    intro e he
    exact h.1 e.player (mem_rankify_player ps (i + 1) e he)

lemma rankify_map_rank :
    ∀ (l : List Player1) (i : Nat), (rankify i l).map RankedEntry.rank = List.range' i l.length
  | [], _ => rfl
  | _ :: ps, i => by simp [rankify, List.range'_succ, rankify_map_rank ps (i + 1)]

/-- C7: the leaderboard is totally ordered by score descending with
`timeTaken` ascending as tie-break (`lbRel`), ranks are assigned
sequentially starting at 1 in the returned order, and on stored records
with scores `[750, 900, 750]` at times `[100, 0, 50]` the result is
`[900/0, 750/50, 750/100]` with ranks `[1, 2, 3]`. -/
theorem claim_C7_leaderboard_order :
    (∀ db : List Player1,
        (getLeaderboard db).Pairwise fun a b => lbRel a.player b.player) ∧
    (∀ db : List Player1,
        (getLeaderboard db).map RankedEntry.rank = List.range' 1 (getLeaderboard db).length) ∧
    getLeaderboard
        [⟨"A", "D1", none, 100, 750⟩, ⟨"B", "D2", none, 0, 900⟩, ⟨"C", "D3", none, 50, 750⟩] =
      [⟨⟨"B", "D2", none, 0, 900⟩, 1⟩, ⟨⟨"C", "D3", none, 50, 750⟩, 2⟩,
        ⟨⟨"A", "D1", none, 100, 750⟩, 3⟩] := by
  refine ⟨?_, ?_, by decide⟩
  · intro db
    exact rankify_pairwise _ 1
      (List.Pairwise.sublist (List.take_sublist 50 _) (List.sorted_insertionSort lbRel db))
  · intro db
    simp [getLeaderboard, rankify_map_rank, rankify_length]

/-- C8: the leaderboard never exceeds 50 entries, and with 60 stored
records it contains exactly 50. -/
theorem claim_C8_limit50 :
    (∀ db : List Player1, (getLeaderboard db).length ≤ 50) ∧
    (getLeaderboard (List.replicate 60 ⟨"A", "D", none, 100, 750⟩)).length = 50 := by
  constructor
  · intro db
    rw [getLeaderboard, rankify_length, List.length_take]
    exact min_le_left 50 _
  · have hlen :=
      (List.perm_insertionSort lbRel (List.replicate 60 ⟨"A", "D", none, 100, 750⟩)).length_eq
    rw [getLeaderboard, rankify_length, List.length_take, hlen, List.length_replicate]
    decide

/-- C9: the health check always answers HTTP 200 with body status `OK`;
it reports `Connected` exactly in the connected state (`readyState = 1`)
and `Disconnected` in every other storage state, rather than erroring. -/
theorem claim_C9_health :
    (∀ s : Nat, (healthCheck s).httpStatus = 200 ∧ (healthCheck s).status = "OK") ∧
    (healthCheck 1).database = "Connected" ∧
    (∀ s : Nat, s ≠ 1 → (healthCheck s).database = "Disconnected") := by
  refine ⟨fun s => ⟨rfl, rfl⟩, rfl, fun s hs => ?_⟩
  simp [healthCheck, hs]

theorem claim_C9_health_witness :
    (0 : Nat) ≠ 1 ∧ (healthCheck 0).database = "Disconnected" :=
  ⟨by decide, claim_C9_health.2.2 0 (by decide)⟩
